import Mathlib

/-!
Shallow embedding of the Odoo BOM recursive fetcher
(src/odoo/sync-odoo.py, class OdooBOMFetcher) and proofs about it.

The external catalog (Odoo's `product.product`, `product.template`,
`mrp.bom`, `mrp.bom.line` models reachable through `search_read`) is
modelled as in-memory lists; `search_read` returns matches in stored
order, so each query becomes `List.find?` / `List.filter` over the
corresponding list.  Python floats are modelled as rationals; the
`f"{x:.2f}"` formatting becomes `fmt2`.  The unbounded recursion of
`get_bom_lines` / `get_collapsed_single_child` is modelled with a fuel
parameter: a result of `none` means the computation did not finish
within the given fuel (for any fuel: it diverges).  A Python exception
escaping a function is modelled as `some (.error e)`.
-/

attribute [local semireducible] Rat.mul Rat.add Rat.sub Rat.inv

namespace SyncOdoo

/-- A row of Odoo's `product.product`: `id`, `default_code` (the internal
reference, empty string when unset/falsy), `name`, optional
`product_tmpl_id`. -/
structure Product where
  id : Nat
  default_code : String
  name : String
  product_tmpl_id : Option Nat
deriving DecidableEq

/-- A row of `product.template`: `id`, `name`, `default_code`,
`product_variant_ids`. -/
structure Template where
  id : Nat
  name : String
  default_code : String
  product_variant_ids : List Nat
deriving DecidableEq

/-- A row of `mrp.bom`: `id`, optional `product_id` (variant link, `False`
in Odoo becomes `none`), `product_tmpl_id`, `active` flag. -/
structure Bom where
  id : Nat
  product_id : Option Nat
  product_tmpl_id : Nat
  active : Bool
deriving DecidableEq

/-- A row of `mrp.bom.line`: owning `bom_id`, optional child `product_id`,
`product_qty`. -/
structure BomLine where
  bom_id : Nat
  product_id : Option Nat
  product_qty : ℚ
deriving DecidableEq

/-- The backing catalog reachable through `search_read`. -/
structure Catalog where
  products : List Product
  templates : List Template
  boms : List Bom
  bom_lines : List BomLine
deriving DecidableEq

/-- The fixed keyword list `self.filter_keywords` (sync-odoo.py lines
53-58). -/
def filter_keywords : List String :=
  ["zebra", "label", "plastic bag", "zip bag",
   "adhesive foam", "bubble wrap", "sleeve",
   "sticker", "certificate", "user manual", "equipment wire",
   "pallet", "cardboard", "packaging", "box"]

/-- Python's `needle in hay` substring containment on character lists. -/
def listContains (needle : List Char) : List Char → Bool
  | [] => needle.isEmpty
  | c :: rest => needle.isPrefixOf (c :: rest) || listContains needle rest

/-- ASCII lower-casing of one character, as Python's `str.lower` acts on
the ASCII names involved here. -/
def charLower (c : Char) : Char :=
  if 'A' ≤ c ∧ c ≤ 'Z' then Char.ofNat (c.toNat + 32) else c

/-- `name.lower()` (ASCII). -/
def strLower (s : String) : String := ⟨s.data.map charLower⟩

/-- `any(keyword in name.lower() for keyword in self.filter_keywords)`:
case-insensitive substring test against the fixed keyword set. -/
def should_filter_name (name : String) : Bool :=
  filter_keywords.any (fun keyword => listContains keyword.data (strLower name).data)

/-- `get_product_by_reference` (lines 69-100): exact `default_code` match
on `product.product`; on miss, first `product.template` with that
`default_code`, then that template's first variant. -/
def get_product_by_reference (cat : Catalog) (reference : String) : Option Product :=
  match cat.products.find? (fun p => p.default_code == reference) with
  | some p => some p
  | none =>
    match cat.templates.find? (fun t => t.default_code == reference) with
    | some t =>
      match t.product_variant_ids with
      | [] => none
      | vid :: _ => cat.products.find? (fun p => p.id == vid)
    | none => none

/-- `get_bom_for_product` (lines 102-143): first active BOM with
`product_id = product_id`; on miss, first active BOM for the product's
template whose own variant link is unset or equal to this variant. -/
def get_bom_for_product (cat : Catalog) (product_id : Nat) : Option Bom :=
  match cat.boms.find? (fun b => b.product_id == some product_id && b.active) with
  | some b => some b
  | none =>
    match cat.products.find? (fun p => p.id == product_id) with
    | some p =>
      match p.product_tmpl_id with
      | some tmpl_id =>
        cat.boms.find? (fun b =>
          b.product_tmpl_id == tmpl_id && b.active &&
            (b.product_id == none || b.product_id == some product_id))
      | none => none
    | none => none

/-- `adjust_quantity` (lines 145-158). -/
def adjust_quantity (quantity : ℚ) : ℚ :=
  if 11 ≤ quantity ∧ quantity < 50 then max 0 (quantity - 2)
  else if 50 ≤ quantity ∧ quantity < 100 then max 0 (quantity - 4)
  else if 100 ≤ quantity then max 0 (quantity - 10)
  else quantity

/-- Strip one trailing literal `" (copy)"` (7 characters), as in
`final_name[:-7]` guarded by `endswith`. -/
def stripCopy (s : String) : String :=
  if " (copy)".data.isSuffixOf s.data then ⟨s.data.take (s.data.length - 7)⟩ else s

/-- `search_read('product.product', [['id','=',pid]], ...)[0]` as an
optional lookup. -/
def getProduct (cat : Catalog) (pid : Nat) : Option Product :=
  cat.products.find? (fun p => p.id == pid)

/-- The `template_name` computed at lines 301-311 / 198-208: the owning
template's name when the product has one and the template row exists. -/
def templateNameOf (cat : Catalog) (p : Product) : Option String :=
  match p.product_tmpl_id with
  | some tid => (cat.templates.find? (fun t => t.id == tid)).map Template.name
  | none => none

/-- The `final_name` selection at lines 313-320 / 210-214: prefer the
template name when truthy and different from the product's own name. -/
def finalNameOf (cat : Catalog) (p : Product) : String :=
  match templateNameOf cat p with
  | some tn => if tn ≠ "" ∧ tn ≠ p.name then tn else p.name
  | none => p.name

/-- The resolved component display name: `final_name` with the
`" (copy)"` suffix stripped. -/
def resolvedName (cat : Catalog) (p : Product) : String :=
  stripCopy (finalNameOf cat p)

/-- The Python `f"{x:.2f}"` formatting of a (nonnegative) quantity:
round to hundredths and print with exactly two fraction digits. -/
def fmt2 (q : ℚ) : String :=
  let n : Nat := (⌊q * 100 + 1 / 2⌋).toNat
  toString (n / 100) ++ "." ++
    (if n % 100 < 10 then "0" ++ toString (n % 100) else toString (n % 100))

/-- One output row appended to `self.bom_data` (the CSV column set). -/
structure Rec where
  level : Nat
  component_reference : String
  component_name : String
  component_quantity : String
  parent_bom_reference : String
  parent_bom_name : String
  has_child_bom : Bool
deriving DecidableEq

/-- The component dict built inside `get_collapsed_single_child`
(lines 225-231), with the `has_child_bom` key that is added on return. -/
structure CollapseComp where
  product_id : Nat
  component_reference : String
  component_name : String
  quantity : ℚ
  level : Nat
  has_child_bom : Bool
deriving DecidableEq

/-- The `valid_components` list of `get_collapsed_single_child`
(lines 179-231): BOM lines of `bom_id`, skipping lines with no product
and lines whose product has no catalog row, excluding keyword-filtered
names. -/
def valid_components (cat : Catalog) (bom_id : Nat) (parent_qty : ℚ) (level : Nat) :
    List CollapseComp :=
  (cat.bom_lines.filter (fun l => l.bom_id == bom_id)).filterMap (fun line =>
    match line.product_id with
    | none => none
    | some pid =>
      match getProduct cat pid with
      | none => none
      | some p =>
        if should_filter_name (resolvedName cat p) then none
        else some ⟨pid, p.default_code, resolvedName cat p,
          line.product_qty * parent_qty, level, false⟩)

/-- `get_collapsed_single_child` (lines 160-254), fuel-indexed: outer
`none` means the recursion did not finish within `fuel` (the source has
no cycle guard here); `some none` is the Python `None` ("do not
collapse"); `some (some c)` is a returned collapsed component. -/
def get_collapsed_single_child (cat : Catalog) :
    Nat → Nat → ℚ → Nat → Option (Option CollapseComp)
  | 0, _, _, _ => none
  | fuel + 1, bom_id, parent_qty, level =>
    match valid_components cat bom_id parent_qty level with
    | [component] =>
      match get_bom_for_product cat component.product_id with
      | some child_bom =>
        match get_collapsed_single_child cat fuel child_bom.id component.quantity (level + 1) with
        | none => none
        | some (some collapsed) => some (some collapsed)
        | some none => some (some { component with has_child_bom := true })
      | none => some (some { component with has_child_bom := false })
    | _ => some none

/-- Python exceptions escaping the fetch: the bare IndexError at line 320
(`product_details[0]` on an empty list), and the two `raise Exception`
of `fetch_bom_recursive`. -/
inductive PErr
  | indexError
  | productNotFound
  | bomNotFound
deriving DecidableEq

/-- The fetcher's mutable traversal state: `self.processed_boms` (a set,
modelled as the list of inserted ids), `self.bom_data`, and
`self.parent_names` (a dict, modelled as an association list where
insertion prepends and lookup takes the first match). -/
structure St where
  processed_boms : List Nat
  bom_data : List Rec
  parent_names : List (String × String)
deriving DecidableEq

instance : DecidableEq (Except PErr St) := fun a b =>
  match a, b with
  | .ok s, .ok t => if h : s = t then isTrue (by rw [h]) else isFalse (by simp [h])
  | .error e, .error f => if h : e = f then isTrue (by rw [h]) else isFalse (by simp [h])
  | .ok _, .error _ => isFalse (by simp)
  | .error _, .ok _ => isFalse (by simp)

/-- The parent-name computation of the cache-miss branch (lines 346-370):
look up the product by `default_code`; if found take its name, preferring
the template's name when the template row exists, and strip `" (copy)"`;
otherwise fall back to the reference itself. -/
def resolveParentName (cat : Catalog) (parent_reference : String) : String :=
  match cat.products.find? (fun p => p.default_code == parent_reference) with
  | none => parent_reference
  | some pp =>
    let parent_name :=
      match pp.product_tmpl_id with
      | some tid =>
        match cat.templates.find? (fun t => t.id == tid) with
        | some t => t.name
        | none => pp.name
      | none => pp.name
    stripCopy parent_name

/-- The `if parent_reference not in self.parent_names: ...` block
(lines 345-370): populate the cache on miss. -/
def ensureParent (cat : Catalog) (names : List (String × String))
    (parent_reference : String) : List (String × String) :=
  match names.lookup parent_reference with
  | some _ => names
  | none => (parent_reference, resolveParentName cat parent_reference) :: names

/-- The body of the `for line in bom_lines:` loop of `get_bom_lines`
(lines 281-421) for one line.  `recur` is the recursive
`self.get_bom_lines` call; `fuel` feeds `get_collapsed_single_child`.
Mirrors the source's control flow: missing line product continues;
missing product row raises IndexError (line 320) before the
`if product_details:` guard; a filtered component appends no record but
the child-BOM check (lines 386-421) still runs. -/
def process_line (cat : Catalog) (fuel : Nat)
    (recur : Nat → String → ℚ → Nat → St → Option (Except PErr St))
    (parent_reference : String) (parent_qty : ℚ) (level : Nat)
    (s : St) (line : BomLine) : Option (Except PErr St) :=
  match line.product_id with
  | none => some (.ok s)
  | some product_id =>
    let quantity := line.product_qty * parent_qty
    match getProduct cat product_id with
    | none => some (.error .indexError)
    | some p =>
      let component_ref := p.default_code
      let component_name := resolvedName cat p
      let should_filter := should_filter_name component_name
      let s1 : St :=
        if should_filter then s
        else
          let names := ensureParent cat s.parent_names parent_reference
          let rec1 : Rec :=
            { level := level
              component_reference := component_ref
              component_name := component_name
              component_quantity := fmt2 (adjust_quantity quantity)
              parent_bom_reference := parent_reference
              parent_bom_name := (names.lookup parent_reference).getD parent_reference
              has_child_bom := false }
          { s with parent_names := names, bom_data := s.bom_data ++ [rec1] }
      match get_bom_for_product cat product_id with
      | none => some (.ok s1)
      | some child_bom =>
        match get_collapsed_single_child cat fuel child_bom.id quantity level with
        | none => none
        | some (some collapsed) =>
          let s2 : St :=
            if should_filter then s1
            else { s1 with bom_data := s1.bom_data.eraseIdx (s1.bom_data.length - 1) }
          let formatted : Rec :=
            { level := collapsed.level
              component_reference := collapsed.component_reference
              component_name := collapsed.component_name
              component_quantity := fmt2 (adjust_quantity collapsed.quantity)
              parent_bom_reference := parent_reference
              parent_bom_name :=
                (s2.parent_names.lookup parent_reference).getD parent_reference
              has_child_bom := collapsed.has_child_bom }
          some (.ok { s2 with bom_data := s2.bom_data ++ [formatted] })
        | some none =>
          let s2 : St :=
            if should_filter then s1
            else
              { s1 with bom_data :=
                  match s1.bom_data.get? (s1.bom_data.length - 1) with
                  | some r =>
                      s1.bom_data.set (s1.bom_data.length - 1) { r with has_child_bom := true }
                  | none => s1.bom_data }
          recur child_bom.id (if component_ref ≠ "" then component_ref else component_name)
            quantity (level + 1) s2

/-- Run the loop body over the remaining lines, propagating an escaping
exception (`some (.error e)`) or exhausted fuel (`none`). -/
def run_lines (step : St → BomLine → Option (Except PErr St)) :
    List BomLine → St → Option (Except PErr St)
  | [], s => some (.ok s)
  | line :: rest, s =>
    match step s line with
    | none => none
    | some (.error e) => some (.error e)
    | some (.ok s') => run_lines step rest s'

/-- `get_bom_lines` (lines 256-421), fuel-indexed: return unchanged when
`bom_id` was already processed (cycle guard), otherwise mark it and
process each line of the BOM in stored order. -/
def get_bom_lines (cat : Catalog) :
    Nat → Nat → String → ℚ → Nat → St → Option (Except PErr St)
  | 0, _, _, _, _, _ => none
  | fuel + 1, bom_id, parent_reference, parent_qty, level, s =>
    if s.processed_boms.contains bom_id then some (.ok s)
    else
      run_lines
        (process_line cat fuel (fun b pr q l st => get_bom_lines cat fuel b pr q l st)
          parent_reference parent_qty level)
        (cat.bom_lines.filter (fun l => l.bom_id == bom_id))
        { s with processed_boms := bom_id :: s.processed_boms }

/-- `fetch_bom_recursive` (lines 423-471): clear `processed_boms` and
`bom_data` (the parent-name cache is NOT cleared), resolve the product
and its BOM (raising on failure), cache the root product's name, emit
the level-0 record, and expand the root BOM. -/
def fetch_bom_recursive (cat : Catalog) (fuel : Nat) (reference : String) (s : St) :
    Option (Except PErr St) :=
  let s0 : St := { s with processed_boms := [], bom_data := [] }
  match get_product_by_reference cat reference with
  | none => some (.error .productNotFound)
  | some product =>
    match get_bom_for_product cat product.id with
    | none => some (.error .bomNotFound)
    | some bom =>
      let s1 : St := { s0 with parent_names := (reference, product.name) :: s0.parent_names }
      let s2 : St :=
        { s1 with bom_data := s1.bom_data ++ [⟨0, reference, product.name, "1.00", "", "", true⟩] }
      get_bom_lines cat fuel bom.id reference 1 1 s2

/-- One CSV row of `export_to_csv` (lines 473-492): the seven fields in
header order, booleans in Python's textual form. -/
def recRow (r : Rec) : String :=
  toString r.level ++ "," ++ r.component_reference ++ "," ++ r.component_name ++ "," ++
    r.component_quantity ++ "," ++ r.parent_bom_reference ++ "," ++ r.parent_bom_name ++ "," ++
    (if r.has_child_bom then "True" else "False") ++ "\r\n"

/-- The CSV content written by `export_to_csv`: fixed header then one row
per record in emission order. -/
def export_to_csv (data : List Rec) : String :=
  "level,component_reference,component_name,component_quantity,parent_bom_reference,parent_bom_name,has_child_bom\r\n"
    ++ String.join (data.map recRow)

/-- Cache evolution relation: `c'` answers every lookup `c` answers, with
the same value, and any additional key it answers carries the value the
cache-miss branch (`resolveParentName`) would compute.  This is exactly
how `self.parent_names` grows during a traversal. -/
def cacheExtends (cat : Catalog) (c c' : List (String × String)) : Prop :=
  (∀ k v, c.lookup k = some v → c'.lookup k = some v) ∧
  (∀ k v, c'.lookup k = some v → c.lookup k = some v ∨ v = resolveParentName cat k)

/-- How one `get_bom_lines` call evolves the fetcher state: it only
appends records, every appended record's name survives the keyword
filter, and the parent-name cache only grows with miss-branch values. -/
def Evolves (cat : Catalog) (s s' : St) : Prop :=
  (∃ new, s'.bom_data = s.bom_data ++ new ∧
    ∀ r ∈ new, should_filter_name r.component_name = false) ∧
  cacheExtends cat s.parent_names s'.parent_names

/-- Agreement of two output records on every field except
`parent_bom_name` (the one field a pre-warmed parent-name cache can
change). -/
def RecAgree (r r' : Rec) : Prop :=
  r.level = r'.level ∧ r.component_reference = r'.component_reference ∧
  r.component_name = r'.component_name ∧ r.component_quantity = r'.component_quantity ∧
  r.parent_bom_reference = r'.parent_bom_reference ∧ r.has_child_bom = r'.has_child_bom

/-- Agreement of two fetcher states: equal processed sets, record lists
agreeing up to `parent_bom_name`, caches related by `cacheExtends`. -/
def StAgree (cat : Catalog) (s s' : St) : Prop :=
  s.processed_boms = s'.processed_boms ∧
  List.Forall₂ RecAgree s.bom_data s'.bom_data ∧
  cacheExtends cat s.parent_names s'.parent_names

/-- Agreement of two traversal results: identical shape (fuel-out /
exception / success), success states related by `StAgree`. -/
def MAgree (cat : Catalog) : Option (Except PErr St) → Option (Except PErr St) → Prop
  | none, none => True
  | some (.error e), some (.error e') => e = e'
  | some (.ok s), some (.ok s') => StAgree cat s s'
  | _, _ => False

/-! Concrete catalogs used to settle the individual claims. -/

/-- The spec's collapse example: `ROOT-1` → (qty 2) `MID-1` → (qty 3)
`LEAF-1`, each BOM a single line. -/
def c2cat : Catalog :=
  { products := [⟨1, "ROOT-1", "RootName", none⟩, ⟨2, "MID-1", "MidName", none⟩,
                 ⟨3, "LEAF-1", "LeafName", none⟩]
    templates := []
    boms := [⟨10, some 1, 100, true⟩, ⟨20, some 2, 200, true⟩]
    bom_lines := [⟨10, some 2, 2⟩, ⟨20, some 3, 3⟩] }

/-- A keyword-filtered component `F` ("Box of parts") whose own BOM
(id 20) has two further components `C` and `D`. -/
def c1cat : Catalog :=
  { products := [⟨1, "R", "Root", none⟩, ⟨2, "F", "Box of parts", none⟩,
                 ⟨3, "C", "Widget", none⟩, ⟨4, "D", "Gadget", none⟩]
    templates := []
    boms := [⟨10, some 1, 90, true⟩, ⟨20, some 2, 91, true⟩]
    bom_lines := [⟨10, some 2, 1⟩, ⟨20, some 3, 1⟩, ⟨20, some 4, 1⟩] }

/-- A DAG: products `P1` and `P2` share the template-wide BOM 20 (two
leaf components), so BOM 20 occurs under two distinct parents. -/
def c10cat : Catalog :=
  { products := [⟨1, "R", "RootN", none⟩, ⟨2, "P1", "P1N", some 7⟩, ⟨3, "P2", "P2N", some 7⟩,
                 ⟨4, "C", "CN", none⟩, ⟨5, "D", "DN", none⟩]
    templates := [⟨7, "", "", [2, 3]⟩]
    boms := [⟨10, some 1, 99, true⟩, ⟨20, none, 7, true⟩]
    bom_lines := [⟨10, some 2, 1⟩, ⟨10, some 3, 1⟩, ⟨20, some 4, 1⟩, ⟨20, some 5, 1⟩] }

/-- A BOM line referencing product id 99, for which the catalog has no
row, followed by a healthy sibling line. -/
def c5cat : Catalog :=
  { products := [⟨1, "R", "Root", none⟩, ⟨2, "Part", "PartName", none⟩]
    templates := []
    boms := [⟨10, some 1, 95, true⟩]
    bom_lines := [⟨10, some 99, 1⟩, ⟨10, some 2, 1⟩] }

/-- A root product whose own name ("Control box") contains the filter
keyword `box`; its BOM has no lines. -/
def c6cat : Catalog :=
  { products := [⟨1, "R", "Control box", none⟩]
    templates := []
    boms := [⟨10, some 1, 96, true⟩]
    bom_lines := [] }

/-- A two-level tree where `B` is the parent of leaves `C` and `D`; used
with a pre-existing stale cache entry for `B`. -/
def c8cat : Catalog :=
  { products := [⟨1, "A", "A-name", none⟩, ⟨2, "B", "B-name", none⟩,
                 ⟨3, "C", "C-name", none⟩, ⟨4, "D", "D-name", none⟩]
    templates := []
    boms := [⟨10, some 1, 70, true⟩, ⟨20, some 2, 71, true⟩]
    bom_lines := [⟨10, some 2, 1⟩, ⟨20, some 3, 1⟩, ⟨20, some 4, 1⟩] }

/-- Under parent `P`: a filtered component `F` ("Box kit") with a
single-child (collapsing) BOM, followed by two normal leaves.  The
collapse-replacement record for `L` reads the parent-name cache without
populating it. -/
def c9cat : Catalog :=
  { products := [⟨1, "R", "RootN", none⟩, ⟨2, "P", "ParentN", none⟩, ⟨3, "F", "Box kit", none⟩,
                 ⟨4, "L", "LeafN", none⟩, ⟨5, "N", "NormalN", none⟩, ⟨6, "M", "MiscN", none⟩]
    templates := []
    boms := [⟨10, some 1, 60, true⟩, ⟨20, some 2, 61, true⟩, ⟨30, some 3, 62, true⟩]
    bom_lines := [⟨10, some 2, 1⟩, ⟨20, some 3, 1⟩, ⟨20, some 5, 1⟩, ⟨20, some 6, 1⟩,
                  ⟨30, some 4, 1⟩] }

/-- The spec's cycle example: `A`'s BOM contains `B` and `B`'s BOM
contains `A`, each BOM a single line. -/
def cycleCat : Catalog :=
  { products := [⟨1, "A", "NameA", none⟩, ⟨2, "B", "NameB", none⟩]
    templates := []
    boms := [⟨10, some 1, 80, true⟩, ⟨20, some 2, 81, true⟩]
    bom_lines := [⟨10, some 2, 1⟩, ⟨20, some 1, 1⟩] }

/-- A lone product with no BOM at all, for the error-path witnesses. -/
def c7cat : Catalog :=
  { products := [⟨1, "A", "AName", none⟩]
    templates := []
    boms := []
    bom_lines := [] }

/-- A single loose product used to witness the per-line emission shape. -/
def c3cat : Catalog :=
  { products := [⟨9, "W", "Widget9", none⟩]
    templates := []
    boms := []
    bom_lines := [] }

/-! List bookkeeping lemmas for the append / pop-last / set-last shapes
that `process_line` produces via `item_index = len(bom_data) - 1`. -/

lemma eraseIdx_concat {α : Type} (l : List α) (a : α) :
    (l ++ [a]).eraseIdx l.length = l := by
  induction l with
  | nil => rfl
  | cons x xs ih => simp [List.eraseIdx, ih]

lemma get?_concat {α : Type} (l : List α) (a : α) :
    (l ++ [a]).get? l.length = some a := by
  induction l with
  | nil => rfl
  | cons x xs ih => simp [List.get?, ih]

lemma set_concat {α : Type} (l : List α) (a b : α) :
    (l ++ [a]).set l.length b = l ++ [b] := by
  induction l with
  | nil => rfl
  | cons x xs ih => simp [List.set, ih]

lemma length_concat_sub_one {α : Type} (l : List α) (a : α) :
    (l ++ [a]).length - 1 = l.length := by
  simp

/-! Unfolding lemmas for the two per-line emission shapes of
`process_line`: a non-filtered leaf line, and a non-filtered line whose
child BOM collapses. -/

/-- A non-filtered line whose product has no BOM appends exactly one
record whose quantity is `fmt2 (adjust_quantity (line qty * parent
multiplier))`. -/
lemma process_line_leaf (cat : Catalog) (fuel : Nat)
    (recur : Nat → String → ℚ → Nat → St → Option (Except PErr St))
    (parent_reference : String) (parent_qty : ℚ) (level : Nat) (s : St)
    (line : BomLine) (pid : Nat) (p : Product)
    (h1 : line.product_id = some pid)
    (h2 : getProduct cat pid = some p)
    (h3 : should_filter_name (resolvedName cat p) = false)
    (h4 : get_bom_for_product cat pid = none) :
    process_line cat fuel recur parent_reference parent_qty level s line =
      some (.ok ⟨s.processed_boms,
        s.bom_data ++ [⟨level, p.default_code, resolvedName cat p,
          fmt2 (adjust_quantity (line.product_qty * parent_qty)),
          parent_reference,
          ((ensureParent cat s.parent_names parent_reference).lookup parent_reference).getD
            parent_reference, false⟩],
        ensureParent cat s.parent_names parent_reference⟩) := by
  unfold process_line
  rw [h1]
  simp only [h2, h3, h4, Bool.false_eq_true, if_false]

/-- A non-filtered line whose child BOM collapses: the record appended
for the line itself is popped again, and exactly one record carrying the
collapsed component's reference, name, quantity, level and
`has_child_bom`, with the current parent, is appended instead. -/
lemma process_line_collapse (cat : Catalog) (fuel : Nat)
    (recur : Nat → String → ℚ → Nat → St → Option (Except PErr St))
    (parent_reference : String) (parent_qty : ℚ) (level : Nat) (s : St)
    (line : BomLine) (pid : Nat) (p : Product) (child_bom : Bom) (collapsed : CollapseComp)
    (h1 : line.product_id = some pid)
    (h2 : getProduct cat pid = some p)
    (h3 : should_filter_name (resolvedName cat p) = false)
    (h4 : get_bom_for_product cat pid = some child_bom)
    (h5 : get_collapsed_single_child cat fuel child_bom.id (line.product_qty * parent_qty) level =
      some (some collapsed)) :
    process_line cat fuel recur parent_reference parent_qty level s line =
      some (.ok ⟨s.processed_boms,
        s.bom_data ++ [⟨collapsed.level, collapsed.component_reference,
          collapsed.component_name, fmt2 (adjust_quantity collapsed.quantity),
          parent_reference,
          ((ensureParent cat s.parent_names parent_reference).lookup parent_reference).getD
            parent_reference, collapsed.has_child_bom⟩],
        ensureParent cat s.parent_names parent_reference⟩) := by
  unfold process_line
  rw [h1]
  simp only [h2, h3, h4, h5, Bool.false_eq_true, if_false, length_concat_sub_one,
    eraseIdx_concat]

/-- C3: the quantity-adjustment brackets (`q-2` on `[11,50)`, `q-4` on
`[50,100)`, `q-10` on `[100,∞)`, identity below 11, result nonnegative),
the four concrete examples 12→10, 60→56, 150→140, 5→5, and the fact that
a non-filtered emitted record's quantity is `fmt2 (adjust_quantity q)`
for `q` the pre-adjustment computed quantity (line `product_qty` times
the parent multiplier). -/
theorem claim_C3 :
    (∀ q : ℚ, 0 ≤ q →
      (11 ≤ q ∧ q < 50 → adjust_quantity q = q - 2) ∧
      (50 ≤ q ∧ q < 100 → adjust_quantity q = q - 4) ∧
      (100 ≤ q → adjust_quantity q = q - 10) ∧
      (q < 11 → adjust_quantity q = q) ∧
      0 ≤ adjust_quantity q) ∧
    adjust_quantity 12 = 10 ∧ adjust_quantity 60 = 56 ∧ adjust_quantity 150 = 140 ∧
    adjust_quantity 5 = 5 ∧
    (∀ (cat : Catalog) (fuel : Nat)
      (recur : Nat → String → ℚ → Nat → St → Option (Except PErr St))
      (parent_reference : String) (parent_qty : ℚ) (level : Nat) (s : St)
      (line : BomLine) (pid : Nat) (p : Product),
      line.product_id = some pid →
      getProduct cat pid = some p →
      should_filter_name (resolvedName cat p) = false →
      get_bom_for_product cat pid = none →
      process_line cat fuel recur parent_reference parent_qty level s line =
        some (.ok ⟨s.processed_boms,
          s.bom_data ++ [⟨level, p.default_code, resolvedName cat p,
            fmt2 (adjust_quantity (line.product_qty * parent_qty)),
            parent_reference,
            ((ensureParent cat s.parent_names parent_reference).lookup parent_reference).getD
              parent_reference, false⟩],
          ensureParent cat s.parent_names parent_reference⟩)) := by
  refine ⟨fun q hq => ⟨?_, ?_, ?_, ?_, ?_⟩, by decide, by decide, by decide, by decide,
    process_line_leaf⟩
  · intro h
    rw [adjust_quantity, if_pos h]
    exact max_eq_right (by linarith)
  · intro h
    rw [adjust_quantity, if_neg (by rintro ⟨-, h50⟩; linarith), if_pos h]
    exact max_eq_right (by linarith)
  · intro h
    rw [adjust_quantity, if_neg (by rintro ⟨-, h50⟩; linarith),
      if_neg (by rintro ⟨-, h100⟩; linarith), if_pos h]
    exact max_eq_right (by linarith)
  · intro h
    rw [adjust_quantity, if_neg (by rintro ⟨h11, -⟩; linarith),
      if_neg (by rintro ⟨h50, -⟩; linarith), if_neg (by intro h100; linarith)]
  · rw [adjust_quantity]
    split_ifs with h1 h2 h3
    · exact le_max_left 0 _
    · exact le_max_left 0 _
    · exact le_max_left 0 _
    · exact hq

/-- Witness for C3 at concrete inputs: `q = 12` falls in the first
bracket and adjusts to 10, and a concrete leaf line with computed
quantity `12 * 1` is emitted with quantity string `"10.00"`. -/
theorem claim_C3_witness :
    (0 : ℚ) ≤ 12 ∧ (11 ≤ (12 : ℚ) ∧ (12 : ℚ) < 50) ∧ adjust_quantity 12 = 12 - 2 ∧
    process_line c3cat 0 (fun _ _ _ _ _ => none) "Q" 1 1 ⟨[], [], []⟩ ⟨77, some 9, 12⟩ =
      some (.ok ⟨[], [⟨1, "W", "Widget9", "10.00", "Q", "Q", false⟩], [("Q", "Q")]⟩) := by
  refine ⟨by norm_num, ⟨by norm_num, by norm_num⟩, ?_, ?_⟩
  · exact (claim_C3.1 12 (by norm_num)).1 ⟨by norm_num, by norm_num⟩
  · have h := claim_C3.2.2.2.2.2 c3cat 0 (fun _ _ _ _ _ => none) "Q" 1 1 ⟨[], [], []⟩
      ⟨77, some 9, 12⟩ 9 ⟨9, "W", "Widget9", none⟩ rfl (by decide) (by decide) (by decide)
    exact h.trans (by decide)

/-- C2: a non-filtered line whose child BOM fully collapses has its own
record removed and replaced by a single record carrying the collapsed
component's reference, name, quantity, level and `has_child_bom`, with
the current parent as `parent_bom_reference`/`parent_bom_name`; and the
spec's concrete example `ROOT-1 → MID-1 (qty 2) → LEAF-1 (qty 3)` yields
exactly two records, level 0 `ROOT-1` qty `"1.00"` and level 1 `LEAF-1`
qty `"6.00"` with parent `ROOT-1` and `has_child_bom = false`, `MID-1`
appearing nowhere. -/
theorem claim_C2 :
    (∀ (cat : Catalog) (fuel : Nat)
      (recur : Nat → String → ℚ → Nat → St → Option (Except PErr St))
      (parent_reference : String) (parent_qty : ℚ) (level : Nat) (s : St)
      (line : BomLine) (pid : Nat) (p : Product) (child_bom : Bom) (collapsed : CollapseComp),
      line.product_id = some pid →
      getProduct cat pid = some p →
      should_filter_name (resolvedName cat p) = false →
      get_bom_for_product cat pid = some child_bom →
      get_collapsed_single_child cat fuel child_bom.id (line.product_qty * parent_qty) level =
        some (some collapsed) →
      process_line cat fuel recur parent_reference parent_qty level s line =
        some (.ok ⟨s.processed_boms,
          s.bom_data ++ [⟨collapsed.level, collapsed.component_reference,
            collapsed.component_name, fmt2 (adjust_quantity collapsed.quantity),
            parent_reference,
            ((ensureParent cat s.parent_names parent_reference).lookup parent_reference).getD
              parent_reference, collapsed.has_child_bom⟩],
          ensureParent cat s.parent_names parent_reference⟩)) ∧
    fetch_bom_recursive c2cat 10 "ROOT-1" ⟨[], [], []⟩ =
      some (.ok ⟨[10],
        [⟨0, "ROOT-1", "RootName", "1.00", "", "", true⟩,
         ⟨1, "LEAF-1", "LeafName", "6.00", "ROOT-1", "RootName", false⟩],
        [("ROOT-1", "RootName")]⟩) :=
  ⟨process_line_collapse, by decide⟩

/-- Witness for C2's universal part at concrete inputs: the `MID-1` line
under `ROOT-1` collapses to `LEAF-1` with quantity 6, and processing it
emits exactly the `LEAF-1` record with parent `ROOT-1`. -/
theorem claim_C2_witness :
    get_collapsed_single_child c2cat 9 20 (2 * 1) 1 =
      some (some ⟨3, "LEAF-1", "LeafName", 6, 1, false⟩) ∧
    process_line c2cat 9 (fun _ _ _ _ _ => none) "ROOT-1" 1 1
        ⟨[10], [], [("ROOT-1", "RootName")]⟩ ⟨10, some 2, 2⟩ =
      some (.ok ⟨[10],
        [⟨1, "LEAF-1", "LeafName", "6.00", "ROOT-1", "RootName", false⟩],
        [("ROOT-1", "RootName")]⟩) := by
  refine ⟨by decide, ?_⟩
  have h := claim_C2.1 c2cat 9 (fun _ _ _ _ _ => none) "ROOT-1" 1 1
    ⟨[10], [], [("ROOT-1", "RootName")]⟩ ⟨10, some 2, 2⟩ 2 ⟨2, "MID-1", "MidName", none⟩
    ⟨20, some 2, 200, true⟩ ⟨3, "LEAF-1", "LeafName", 6, 1, false⟩
    rfl (by decide) (by decide) (by decide) (by decide)
  exact h.trans (by decide)

/-- C7: when the product lookup (exact variant match, then template
fallback) fails, the fetch returns the `ProductNotFound` error and
nothing else; when the product resolves but the BOM lookup (variant,
then template-scoped fallback) fails, it returns the `BomNotFound` error
and nothing else.  In both cases the result carries no records. -/
theorem claim_C7 :
    ∀ (cat : Catalog) (fuel : Nat) (reference : String) (s : St),
      (get_product_by_reference cat reference = none →
        fetch_bom_recursive cat fuel reference s = some (.error .productNotFound)) ∧
      (∀ p, get_product_by_reference cat reference = some p →
        get_bom_for_product cat p.id = none →
        fetch_bom_recursive cat fuel reference s = some (.error .bomNotFound)) := by
  intro cat fuel reference s
  constructor
  · intro h
    unfold fetch_bom_recursive
    simp only [h]
  · intro p hp hb
    unfold fetch_bom_recursive
    simp only [hp, hb]

/-- Witness for C7 at concrete inputs: reference `"X"` matches nothing in
`c7cat` and errors with `ProductNotFound`; reference `"A"` resolves to a
product with no BOM and errors with `BomNotFound`. -/
theorem claim_C7_witness :
    get_product_by_reference c7cat "X" = none ∧
    fetch_bom_recursive c7cat 3 "X" ⟨[], [], []⟩ = some (.error .productNotFound) ∧
    get_product_by_reference c7cat "A" = some ⟨1, "A", "AName", none⟩ ∧
    get_bom_for_product c7cat 1 = none ∧
    fetch_bom_recursive c7cat 3 "A" ⟨[], [], []⟩ = some (.error .bomNotFound) :=
  ⟨by decide, (claim_C7 c7cat 3 "X" ⟨[], [], []⟩).1 (by decide), by decide, by decide,
    (claim_C7 c7cat 3 "A" ⟨[], [], []⟩).2 ⟨1, "A", "AName", none⟩ (by decide) (by decide)⟩

/-- C10: a BOM id already in `processed_boms` is never expanded again
(the call returns the state unchanged), and in the concrete DAG where
BOM 20 occurs under both `P1` and `P2`, the second occurrence still
emits its own record with `has_child_bom = true` but contributes no
descendant records. -/
theorem claim_C10 :
    (∀ (cat : Catalog) (fuel bom_id : Nat) (parent_reference : String) (parent_qty : ℚ)
      (level : Nat) (s : St),
      s.processed_boms.contains bom_id = true →
      get_bom_lines cat (fuel + 1) bom_id parent_reference parent_qty level s =
        some (.ok s)) ∧
    fetch_bom_recursive c10cat 10 "R" ⟨[], [], []⟩ =
      some (.ok ⟨[20, 10],
        [⟨0, "R", "RootN", "1.00", "", "", true⟩,
         ⟨1, "P1", "P1N", "1.00", "R", "RootN", true⟩,
         ⟨2, "C", "CN", "1.00", "P1", "", false⟩,
         ⟨2, "D", "DN", "1.00", "P1", "", false⟩,
         ⟨1, "P2", "P2N", "1.00", "R", "RootN", true⟩],
        [("P1", ""), ("R", "RootN")]⟩) := by
  constructor
  · intro cat fuel bom_id pr pq l s h
    unfold get_bom_lines
    simp only [h, if_true]
  · decide

/-- Witness for C10's guard at concrete inputs: BOM 20 is already in the
processed set, so a further expansion call returns its state unchanged. -/
theorem claim_C10_witness :
    List.contains [20, 10] 20 = true ∧
    get_bom_lines c10cat 1 20 "P2" 1 2 ⟨[20, 10], [], []⟩ =
      some (.ok ⟨[20, 10], [], []⟩) :=
  ⟨by decide, (claim_C10.1 c10cat 0 20 "P2" 1 2 ⟨[20, 10], [], []⟩ (by decide))⟩

/-- Counterexample to C1 as stated: component `F` ("Box of parts") is
keyword-filtered and has its own BOM, yet the records of its children
`C` and `D` (with `parent_bom_reference = "F"`) appear in the output:
the child BOM of a filtered component IS traversed. -/
theorem claim_C1_counterexample :
    should_filter_name (resolvedName c1cat ⟨2, "F", "Box of parts", none⟩) = true ∧
    get_bom_for_product c1cat 2 = some ⟨20, some 2, 91, true⟩ ∧
    fetch_bom_recursive c1cat 10 "R" ⟨[], [], []⟩ =
      some (.ok ⟨[20, 10],
        [⟨0, "R", "Root", "1.00", "", "", true⟩,
         ⟨2, "C", "Widget", "1.00", "F", "Box of parts", false⟩,
         ⟨2, "D", "Gadget", "1.00", "F", "Box of parts", false⟩],
        [("F", "Box of parts"), ("R", "Root")]⟩) :=
  ⟨by decide, by decide, by decide⟩

/-- Counterexample to C6 as stated: the level-0 root record is emitted
without any keyword check, so a root product named "Control box"
(containing the keyword `box`) appears in the output. -/
theorem claim_C6_counterexample :
    should_filter_name "Control box" = true ∧
    fetch_bom_recursive c6cat 10 "R" ⟨[], [], []⟩ =
      some (.ok ⟨[10], [⟨0, "R", "Control box", "1.00", "", "", true⟩],
        [("R", "Control box")]⟩) :=
  ⟨by decide, by decide⟩

/-- C5 (code bug): a BOM line whose product id (99) has no catalog row
makes `get_bom_lines` raise the bare IndexError of
`final_name = product_details[0]['name']` (sync-odoo.py line 320), so the
whole fetch aborts instead of skipping the line and continuing with the
healthy sibling. -/
theorem claim_C5_failing :
    getProduct c5cat 99 = none ∧
    fetch_bom_recursive c5cat 10 "R" ⟨[], [], []⟩ = some (.error .indexError) :=
  ⟨by decide, by decide⟩

/-- Counterexample to C8 as stated: the parent-name cache is NOT cleared
at the start of a fetch; a stale entry `("B", "STALE")` survives into the
traversal and even shows up in the emitted `parent_bom_name` fields, so
the result differs from the clean-state fetch. -/
theorem claim_C8_counterexample :
    fetch_bom_recursive c8cat 10 "A" ⟨[], [], [("B", "STALE")]⟩ ≠
      fetch_bom_recursive c8cat 10 "A" ⟨[], [], []⟩ ∧
    fetch_bom_recursive c8cat 10 "A" ⟨[], [], [("B", "STALE")]⟩ =
      some (.ok ⟨[20, 10],
        [⟨0, "A", "A-name", "1.00", "", "", true⟩,
         ⟨1, "B", "B-name", "1.00", "A", "A-name", true⟩,
         ⟨2, "C", "C-name", "1.00", "B", "STALE", false⟩,
         ⟨2, "D", "D-name", "1.00", "B", "STALE", false⟩],
        [("A", "A-name"), ("B", "STALE")]⟩) :=
  ⟨by decide, by decide⟩

/-- Counterexample to C9 as stated: two successive fetches on the same
fetcher differ.  The collapse-replacement record for `L` reads the
parent-name cache without populating it: the first run emits the raw
reference `"P"` as its `parent_bom_name`, the second run (cache warmed
by the first) emits `"ParentN"`, so the record lists and the CSV
contents differ. -/
theorem claim_C9_counterexample :
    fetch_bom_recursive c9cat 10 "R" ⟨[], [], []⟩ =
      some (.ok ⟨[20, 10],
        [⟨0, "R", "RootN", "1.00", "", "", true⟩,
         ⟨1, "P", "ParentN", "1.00", "R", "RootN", true⟩,
         ⟨2, "L", "LeafN", "1.00", "P", "P", false⟩,
         ⟨2, "N", "NormalN", "1.00", "P", "ParentN", false⟩,
         ⟨2, "M", "MiscN", "1.00", "P", "ParentN", false⟩],
        [("P", "ParentN"), ("R", "RootN")]⟩) ∧
    fetch_bom_recursive c9cat 10 "R"
        ⟨[20, 10],
          [⟨0, "R", "RootN", "1.00", "", "", true⟩,
           ⟨1, "P", "ParentN", "1.00", "R", "RootN", true⟩,
           ⟨2, "L", "LeafN", "1.00", "P", "P", false⟩,
           ⟨2, "N", "NormalN", "1.00", "P", "ParentN", false⟩,
           ⟨2, "M", "MiscN", "1.00", "P", "ParentN", false⟩],
          [("P", "ParentN"), ("R", "RootN")]⟩ =
      some (.ok ⟨[20, 10],
        [⟨0, "R", "RootN", "1.00", "", "", true⟩,
         ⟨1, "P", "ParentN", "1.00", "R", "RootN", true⟩,
         ⟨2, "L", "LeafN", "1.00", "P", "ParentN", false⟩,
         ⟨2, "N", "NormalN", "1.00", "P", "ParentN", false⟩,
         ⟨2, "M", "MiscN", "1.00", "P", "ParentN", false⟩],
        [("R", "RootN"), ("P", "ParentN"), ("R", "RootN")]⟩) ∧
    ([⟨2, "L", "LeafN", "1.00", "P", "P", false⟩] : List Rec) ≠
      [⟨2, "L", "LeafN", "1.00", "P", "ParentN", false⟩] ∧
    export_to_csv [⟨2, "L", "LeafN", "1.00", "P", "P", false⟩] ≠
      export_to_csv [⟨2, "L", "LeafN", "1.00", "P", "ParentN", false⟩] :=
  ⟨by decide, by decide, by decide, by decide⟩

/-- On the two-BOM cycle `A ↔ B` where each BOM is a single line, the
collapse lookahead (which has no cycle guard) never returns, whatever
the fuel. -/
lemma collapse_cycle : ∀ (fuel : Nat) (q : ℚ) (l : Nat),
    get_collapsed_single_child cycleCat fuel 10 q l = none ∧
    get_collapsed_single_child cycleCat fuel 20 q l = none := by
  intro fuel
  induction fuel with
  | zero => exact fun q l => ⟨rfl, rfl⟩
  | succ n ih =>
    intro q l
    constructor
    · have key : get_collapsed_single_child cycleCat (n + 1) 10 q l =
          (match get_collapsed_single_child cycleCat n 20 (1 * q) (l + 1) with
           | none => none
           | some (some collapsed) => some (some collapsed)
           | some none => some (some ⟨2, "B", "NameB", 1 * q, l, true⟩)) := rfl
      rw [key, (ih (1 * q) (l + 1)).2]
    · have key : get_collapsed_single_child cycleCat (n + 1) 20 q l =
          (match get_collapsed_single_child cycleCat n 10 (1 * q) (l + 1) with
           | none => none
           | some (some collapsed) => some (some collapsed)
           | some none => some (some ⟨1, "A", "NameA", 1 * q, l, true⟩)) := rfl
      rw [key, (ih (1 * q) (l + 1)).1]

/-- A line whose child BOM's collapse check diverges makes the whole
line processing diverge. -/
lemma process_line_collapse_diverge (cat : Catalog) (fuel : Nat)
    (recur : Nat → String → ℚ → Nat → St → Option (Except PErr St))
    (parent_reference : String) (parent_qty : ℚ) (level : Nat) (s : St)
    (line : BomLine) (pid : Nat) (p : Product) (child_bom : Bom)
    (h1 : line.product_id = some pid)
    (h2 : getProduct cat pid = some p)
    (h4 : get_bom_for_product cat pid = some child_bom)
    (h5 : get_collapsed_single_child cat fuel child_bom.id (line.product_qty * parent_qty)
      level = none) :
    process_line cat fuel recur parent_reference parent_qty level s line = none := by
  unfold process_line
  rw [h1]
  simp only [h2, h4, h5]

/-- Expanding BOM 10 of the cycle catalog diverges at every fuel: the
single line `B` triggers the unguarded collapse lookahead on BOM 20,
which never returns. -/
lemma gbl_cycleA : ∀ (fuel : Nat) (bd : List Rec) (names : List (String × String)),
    get_bom_lines cycleCat fuel 10 "A" 1 1 ⟨[], bd, names⟩ = none := by
  intro fuel bd names
  cases fuel with
  | zero => rfl
  | succ n =>
    show run_lines
      (process_line cycleCat n (fun b pr q l st => get_bom_lines cycleCat n b pr q l st)
        "A" 1 1)
      [⟨10, some 2, 1⟩] ⟨[10], bd, names⟩ = none
    have hstep := process_line_collapse_diverge cycleCat n
      (fun b pr q l st => get_bom_lines cycleCat n b pr q l st) "A" 1 1
      ⟨[10], bd, names⟩ ⟨10, some 2, 1⟩ 2 ⟨2, "B", "NameB", none⟩ ⟨20, some 2, 81, true⟩
      rfl (by decide) (by decide) ((collapse_cycle n (1 * 1) 1).2)
    rw [run_lines, hstep]

/-- C4 (code bug): on the spec's own cycle example (`A`'s BOM contains
`B`, `B`'s BOM contains `A`, each a single line) the fetch does NOT
terminate gracefully: the collapse lookahead has no cycle guard and
recurses forever (a Python `RecursionError` aborting the fetch), for
every fuel bound and every starting state. -/
theorem claim_C4_diverges :
    ∀ (fuel : Nat) (s : St), fetch_bom_recursive cycleCat fuel "A" s = none := by
  intro fuel s
  show get_bom_lines cycleCat fuel 10 "A" 1 1
    ⟨[], [⟨0, "A", "NameA", "1.00", "", "", true⟩], ("A", "NameA") :: s.parent_names⟩ = none
  exact gbl_cycleA fuel _ _

/-- C8 amended: `fetch_bom_recursive` resets `processed_boms` and
`bom_data` at the start (the result depends on the incoming state only
through `parent_names`), but the parent-name cache is NOT cleared: a
pre-existing entry `("B", "STALE")` survives into the traversal and into
the emitted records. -/
theorem claim_C8_amended :
    (∀ (cat : Catalog) (fuel : Nat) (reference : String) (s : St),
      fetch_bom_recursive cat fuel reference s =
        fetch_bom_recursive cat fuel reference ⟨[], [], s.parent_names⟩) ∧
    fetch_bom_recursive c8cat 10 "A" ⟨[7], [⟨9, "X", "X", "X", "X", "X", false⟩],
        [("B", "STALE")]⟩ =
      fetch_bom_recursive c8cat 10 "A" ⟨[], [], [("B", "STALE")]⟩ ∧
    fetch_bom_recursive c8cat 10 "A" ⟨[], [], [("B", "STALE")]⟩ =
      some (.ok ⟨[20, 10],
        [⟨0, "A", "A-name", "1.00", "", "", true⟩,
         ⟨1, "B", "B-name", "1.00", "A", "A-name", true⟩,
         ⟨2, "C", "C-name", "1.00", "B", "STALE", false⟩,
         ⟨2, "D", "D-name", "1.00", "B", "STALE", false⟩],
        [("A", "A-name"), ("B", "STALE")]⟩) ∧
    List.lookup "B" [("A", "A-name"), ("B", "STALE")] = some "STALE" :=
  ⟨fun _ _ _ _ => rfl, by decide, by decide, by decide⟩

/-! Cache-evolution and record-evolution lemmas: one traversal only
appends records that survived the keyword filter, and only grows the
parent-name cache with miss-branch (`resolveParentName`) values. -/

lemma cacheExtends_refl (cat : Catalog) (c : List (String × String)) :
    cacheExtends cat c c :=
  ⟨fun _ _ h => h, fun _ _ h => .inl h⟩

lemma cacheExtends_trans {cat : Catalog} {c c' c'' : List (String × String)}
    (h1 : cacheExtends cat c c') (h2 : cacheExtends cat c' c'') :
    cacheExtends cat c c'' := by
  refine ⟨fun k v h => h2.1 k v (h1.1 k v h), fun k v h => ?_⟩
  rcases h2.2 k v h with h' | h'
  · rcases h1.2 k v h' with h'' | h''
    · exact .inl h''
    · exact .inr h''
  · exact .inr h'

lemma lookup_cons {β : Type} (k k' : String) (v : β) (c : List (String × β)) :
    ((k, v) :: c).lookup k' = if k' = k then some v else c.lookup k' := by
  cases hbe : k' == k with
  | true => rw [List.lookup, hbe, if_pos (eq_of_beq hbe)]
  | false => rw [List.lookup, hbe, if_neg (fun hk => by subst hk; simp at hbe)]

lemma ensureParent_extends (cat : Catalog) (c : List (String × String)) (k : String) :
    cacheExtends cat c (ensureParent cat c k) := by
  unfold ensureParent
  cases h : c.lookup k with
  | some v => exact cacheExtends_refl cat c
  | none =>
    constructor
    · intro k' v' h'
      rw [lookup_cons]
      split
      · rename_i hk
        rw [hk] at h'
        rw [h] at h'
        exact absurd h' (by simp)
      · exact h'
    · intro k' v' h'
      rw [lookup_cons] at h'
      split at h'
      · rename_i hk
        injection h' with h''
        exact .inr (by rw [hk, h''])
      · exact .inl h'

lemma evolves_refl (cat : Catalog) (s : St) : Evolves cat s s :=
  ⟨⟨[], by simp, by simp⟩, cacheExtends_refl cat s.parent_names⟩

lemma evolves_trans {cat : Catalog} {s s' s'' : St}
    (h1 : Evolves cat s s') (h2 : Evolves cat s' s'') : Evolves cat s s'' := by
  obtain ⟨⟨n1, hb1, hf1⟩, hc1⟩ := h1
  obtain ⟨⟨n2, hb2, hf2⟩, hc2⟩ := h2
  refine ⟨⟨n1 ++ n2, by rw [hb2, hb1, List.append_assoc], fun r hr => ?_⟩,
    cacheExtends_trans hc1 hc2⟩
  rcases List.mem_append.1 hr with h | h
  · exact hf1 r h
  · exact hf2 r h

/-- Every component surviving into `valid_components` passed the keyword
filter. -/
lemma valid_components_not_filtered (cat : Catalog) (bom_id : Nat) (parent_qty : ℚ)
    (level : Nat) :
    ∀ c ∈ valid_components cat bom_id parent_qty level,
      should_filter_name c.component_name = false := by
  intro c hc
  unfold valid_components at hc
  rw [List.mem_filterMap] at hc
  obtain ⟨line, -, hline⟩ := hc
  split at hline
  · exact absurd hline (by simp)
  · split at hline
    · exact absurd hline (by simp)
    · rename_i p hp
      split at hline
      · exact absurd hline (by simp)
      · rename_i hf
        injection hline with h'
        rw [← h']
        exact Bool.not_eq_true _ ▸ hf

/-- A component returned by the collapse lookahead passed the keyword
filter. -/
lemma collapse_not_filtered (cat : Catalog) :
    ∀ (fuel bom_id : Nat) (parent_qty : ℚ) (level : Nat) (collapsed : CollapseComp),
      get_collapsed_single_child cat fuel bom_id parent_qty level = some (some collapsed) →
      should_filter_name collapsed.component_name = false := by
  intro fuel
  induction fuel with
  | zero => intro b q l cc h; exact absurd h (by simp [get_collapsed_single_child])
  | succ n ih =>
    intro b q l cc h
    rw [get_collapsed_single_child] at h
    split at h
    · rename_i component hvc
      split at h
      · rename_i child_bom hcb
        split at h
        · exact absurd h (by simp)
        · rename_i collapsed' hrec
          injection h with h'
          injection h' with h''
          rw [← h'']
          exact ih child_bom.id component.quantity (l + 1) collapsed' hrec
        · injection h with h'
          injection h' with h''
          rw [← h'']
          exact valid_components_not_filtered cat b q l component (hvc ▸ List.mem_singleton.2 rfl)
      · injection h with h'
        injection h' with h''
        rw [← h'']
        exact valid_components_not_filtered cat b q l component (hvc ▸ List.mem_singleton.2 rfl)
    · exact absurd h (by simp)

/-! Branch equations for `process_line`: one lemma per control path of
the loop body, so later inductions can case on the catalog lookups and
rewrite. -/

/-- A line with no linked product is skipped (`continue`). -/
lemma process_line_no_product (cat : Catalog) (fuel : Nat)
    (recur : Nat → String → ℚ → Nat → St → Option (Except PErr St))
    (parent_reference : String) (parent_qty : ℚ) (level : Nat) (s : St) (line : BomLine)
    (h1 : line.product_id = none) :
    process_line cat fuel recur parent_reference parent_qty level s line = some (.ok s) := by
  unfold process_line
  rw [h1]

/-- A line whose product id has no catalog row raises the IndexError of
sync-odoo.py line 320. -/
lemma process_line_missing (cat : Catalog) (fuel : Nat)
    (recur : Nat → String → ℚ → Nat → St → Option (Except PErr St))
    (parent_reference : String) (parent_qty : ℚ) (level : Nat) (s : St) (line : BomLine)
    (pid : Nat)
    (h1 : line.product_id = some pid)
    (h2 : getProduct cat pid = none) :
    process_line cat fuel recur parent_reference parent_qty level s line =
      some (.error .indexError) := by
  unfold process_line
  rw [h1]
  simp only [h2]

/-- A filtered line whose product has no BOM leaves the state unchanged. -/
lemma process_line_filtered_leaf (cat : Catalog) (fuel : Nat)
    (recur : Nat → String → ℚ → Nat → St → Option (Except PErr St))
    (parent_reference : String) (parent_qty : ℚ) (level : Nat) (s : St) (line : BomLine)
    (pid : Nat) (p : Product)
    (h1 : line.product_id = some pid)
    (h2 : getProduct cat pid = some p)
    (h3 : should_filter_name (resolvedName cat p) = true)
    (h4 : get_bom_for_product cat pid = none) :
    process_line cat fuel recur parent_reference parent_qty level s line = some (.ok s) := by
  unfold process_line
  rw [h1]
  simp only [h2, h3, h4, eq_self_iff_true, if_true]

/-- A filtered line whose child BOM collapses still appends the collapsed
record (reading the parent-name cache without populating it). -/
lemma process_line_filtered_collapse (cat : Catalog) (fuel : Nat)
    (recur : Nat → String → ℚ → Nat → St → Option (Except PErr St))
    (parent_reference : String) (parent_qty : ℚ) (level : Nat) (s : St) (line : BomLine)
    (pid : Nat) (p : Product) (child_bom : Bom) (collapsed : CollapseComp)
    (h1 : line.product_id = some pid)
    (h2 : getProduct cat pid = some p)
    (h3 : should_filter_name (resolvedName cat p) = true)
    (h4 : get_bom_for_product cat pid = some child_bom)
    (h5 : get_collapsed_single_child cat fuel child_bom.id (line.product_qty * parent_qty)
      level = some (some collapsed)) :
    process_line cat fuel recur parent_reference parent_qty level s line =
      some (.ok ⟨s.processed_boms,
        s.bom_data ++ [⟨collapsed.level, collapsed.component_reference,
          collapsed.component_name, fmt2 (adjust_quantity collapsed.quantity),
          parent_reference, (s.parent_names.lookup parent_reference).getD parent_reference,
          collapsed.has_child_bom⟩],
        s.parent_names⟩) := by
  unfold process_line
  rw [h1]
  simp only [h2, h3, h4, h5, eq_self_iff_true, if_true]

/-- A filtered line whose child BOM does not collapse recurses into the
child BOM from the unchanged state. -/
lemma process_line_filtered_recurse (cat : Catalog) (fuel : Nat)
    (recur : Nat → String → ℚ → Nat → St → Option (Except PErr St))
    (parent_reference : String) (parent_qty : ℚ) (level : Nat) (s : St) (line : BomLine)
    (pid : Nat) (p : Product) (child_bom : Bom)
    (h1 : line.product_id = some pid)
    (h2 : getProduct cat pid = some p)
    (h3 : should_filter_name (resolvedName cat p) = true)
    (h4 : get_bom_for_product cat pid = some child_bom)
    (h5 : get_collapsed_single_child cat fuel child_bom.id (line.product_qty * parent_qty)
      level = some none) :
    process_line cat fuel recur parent_reference parent_qty level s line =
      recur child_bom.id
        (if p.default_code ≠ "" then p.default_code else resolvedName cat p)
        (line.product_qty * parent_qty) (level + 1) s := by
  unfold process_line
  rw [h1]
  simp only [h2, h3, h4, h5, eq_self_iff_true, if_true]

/-- A non-filtered line whose child BOM does not collapse appends its
record with `has_child_bom := true` and recurses into the child BOM. -/
lemma process_line_branch_recurse (cat : Catalog) (fuel : Nat)
    (recur : Nat → String → ℚ → Nat → St → Option (Except PErr St))
    (parent_reference : String) (parent_qty : ℚ) (level : Nat) (s : St) (line : BomLine)
    (pid : Nat) (p : Product) (child_bom : Bom)
    (h1 : line.product_id = some pid)
    (h2 : getProduct cat pid = some p)
    (h3 : should_filter_name (resolvedName cat p) = false)
    (h4 : get_bom_for_product cat pid = some child_bom)
    (h5 : get_collapsed_single_child cat fuel child_bom.id (line.product_qty * parent_qty)
      level = some none) :
    process_line cat fuel recur parent_reference parent_qty level s line =
      recur child_bom.id
        (if p.default_code ≠ "" then p.default_code else resolvedName cat p)
        (line.product_qty * parent_qty) (level + 1)
        ⟨s.processed_boms,
          s.bom_data ++ [⟨level, p.default_code, resolvedName cat p,
            fmt2 (adjust_quantity (line.product_qty * parent_qty)),
            parent_reference,
            ((ensureParent cat s.parent_names parent_reference).lookup parent_reference).getD
              parent_reference, true⟩],
          ensureParent cat s.parent_names parent_reference⟩ := by
  unfold process_line
  rw [h1]
  simp only [h2, h3, h4, h5, Bool.false_eq_true, if_false, length_concat_sub_one,
    get?_concat, set_concat]

/-- Each line-processing step only appends keyword-free records and only
grows the cache with miss-branch values, assuming the recursive call
does. -/
lemma process_line_evolves (cat : Catalog) (fuel : Nat)
    (recur : Nat → String → ℚ → Nat → St → Option (Except PErr St))
    (hrec : ∀ b pr q l st st', recur b pr q l st = some (.ok st') → Evolves cat st st') :
    ∀ (parent_reference : String) (parent_qty : ℚ) (level : Nat) (s : St) (line : BomLine)
      (st' : St),
      process_line cat fuel recur parent_reference parent_qty level s line = some (.ok st') →
      Evolves cat s st' := by
  intro pr pq level s line st' h
  cases h1 : line.product_id with
  | none =>
    rw [process_line_no_product cat fuel recur pr pq level s line h1] at h
    injection h with h'
    injection h' with h''
    subst h''
    exact evolves_refl cat s
  | some pid =>
    cases h2 : getProduct cat pid with
    | none =>
      rw [process_line_missing cat fuel recur pr pq level s line pid h1 h2] at h
      exact absurd h (by simp)
    | some p =>
      cases h4 : get_bom_for_product cat pid with
      | none =>
        cases h3 : should_filter_name (resolvedName cat p) with
        | true =>
          rw [process_line_filtered_leaf cat fuel recur pr pq level s line pid p h1 h2 h3 h4]
            at h
          injection h with h'
          injection h' with h''
          subst h''
          exact evolves_refl cat s
        | false =>
          rw [process_line_leaf cat fuel recur pr pq level s line pid p h1 h2 h3 h4] at h
          injection h with h'
          injection h' with h''
          subst h''
          refine ⟨⟨_, rfl, fun r hr => ?_⟩, ensureParent_extends cat s.parent_names pr⟩
          rw [List.mem_singleton.1 hr]
          exact h3
      | some cb =>
        cases h5 : get_collapsed_single_child cat fuel cb.id (line.product_qty * pq) level with
        | none =>
          rw [process_line_collapse_diverge cat fuel recur pr pq level s line pid p cb
            h1 h2 h4 h5] at h
          exact absurd h (by simp)
        | some o =>
          cases o with
          | some collapsed =>
            have hcf := collapse_not_filtered cat fuel cb.id (line.product_qty * pq) level
              collapsed h5
            cases h3 : should_filter_name (resolvedName cat p) with
            | true =>
              rw [process_line_filtered_collapse cat fuel recur pr pq level s line pid p cb
                collapsed h1 h2 h3 h4 h5] at h
              injection h with h'
              injection h' with h''
              subst h''
              refine ⟨⟨_, rfl, fun r hr => ?_⟩, cacheExtends_refl cat s.parent_names⟩
              rw [List.mem_singleton.1 hr]
              exact hcf
            | false =>
              rw [process_line_collapse cat fuel recur pr pq level s line pid p cb collapsed
                h1 h2 h3 h4 h5] at h
              injection h with h'
              injection h' with h''
              subst h''
              refine ⟨⟨_, rfl, fun r hr => ?_⟩, ensureParent_extends cat s.parent_names pr⟩
              rw [List.mem_singleton.1 hr]
              exact hcf
          | none =>
            cases h3 : should_filter_name (resolvedName cat p) with
            | true =>
              rw [process_line_filtered_recurse cat fuel recur pr pq level s line pid p cb
                h1 h2 h3 h4 h5] at h
              exact hrec _ _ _ _ _ _ h
            | false =>
              rw [process_line_branch_recurse cat fuel recur pr pq level s line pid p cb
                h1 h2 h3 h4 h5] at h
              have hmid : Evolves cat s
                  ⟨s.processed_boms,
                    s.bom_data ++ [⟨level, p.default_code, resolvedName cat p,
                      fmt2 (adjust_quantity (line.product_qty * pq)), pr,
                      ((ensureParent cat s.parent_names pr).lookup pr).getD pr, true⟩],
                    ensureParent cat s.parent_names pr⟩ := by
                refine ⟨⟨_, rfl, fun r hr => ?_⟩, ensureParent_extends cat s.parent_names pr⟩
                rw [List.mem_singleton.1 hr]
                exact h3
              exact evolves_trans hmid (hrec _ _ _ _ _ _ h)

/-- Folding the loop body over a line list preserves the evolution
relation. -/
lemma run_lines_evolves (cat : Catalog) (step : St → BomLine → Option (Except PErr St))
    (hstep : ∀ s line s', step s line = some (.ok s') → Evolves cat s s') :
    ∀ (lines : List BomLine) (s st' : St),
      run_lines step lines s = some (.ok st') → Evolves cat s st' := by
  intro lines
  induction lines with
  | nil =>
    intro s st' h
    rw [run_lines] at h
    injection h with h'
    injection h' with h''
    subst h''
    exact evolves_refl cat s
  | cons l ls ih =>
    intro s st' h
    rw [run_lines] at h
    cases hs : step s l with
    | none => rw [hs] at h; exact absurd h (by simp)
    | some e =>
      cases e with
      | error err => rw [hs] at h; exact absurd h (by simp)
      | ok s1 =>
        rw [hs] at h
        exact evolves_trans (hstep s l s1 hs) (ih s1 st' h)

/-- A whole `get_bom_lines` call only appends keyword-free records and
only grows the cache with miss-branch values. -/
lemma gbl_evolves (cat : Catalog) :
    ∀ (fuel bom_id : Nat) (parent_reference : String) (parent_qty : ℚ) (level : Nat)
      (s st' : St),
      get_bom_lines cat fuel bom_id parent_reference parent_qty level s = some (.ok st') →
      Evolves cat s st' := by
  intro fuel
  induction fuel with
  | zero => intro b pr q l s st' h; exact absurd h (by simp [get_bom_lines])
  | succ n ih =>
    intro b pr q l s st' h
    rw [get_bom_lines] at h
    by_cases hc : s.processed_boms.contains b
    · rw [if_pos hc] at h
      injection h with h'
      injection h' with h''
      subst h''
      exact evolves_refl cat s
    · rw [if_neg hc] at h
      have h' := run_lines_evolves cat
        (process_line cat n (fun b2 pr2 q2 l2 st2 => get_bom_lines cat n b2 pr2 q2 l2 st2)
          pr q l)
        (process_line_evolves cat n
          (fun b2 pr2 q2 l2 st2 => get_bom_lines cat n b2 pr2 q2 l2 st2)
          (fun b2 pr2 q2 l2 st st2 hh => ih b2 pr2 q2 l2 st st2 hh) pr q l)
        (cat.bom_lines.filter (fun l2 => l2.bom_id == b))
        ⟨b :: s.processed_boms, s.bom_data, s.parent_names⟩ st' h
      exact h'

/-- Unfolding equation for `fetch_bom_recursive` with the state
threading made explicit. -/
lemma fetch_eq (cat : Catalog) (fuel : Nat) (reference : String) (s : St) :
    fetch_bom_recursive cat fuel reference s =
      match get_product_by_reference cat reference with
      | none => some (.error .productNotFound)
      | some product =>
        match get_bom_for_product cat product.id with
        | none => some (.error .bomNotFound)
        | some bom =>
          get_bom_lines cat fuel bom.id reference 1 1
            ⟨[], [⟨0, reference, product.name, "1.00", "", "", true⟩],
              (reference, product.name) :: s.parent_names⟩ := by
  unfold fetch_bom_recursive
  cases get_product_by_reference cat reference with
  | none => rfl
  | some product =>
    cases get_bom_for_product cat product.id with
    | none => rfl
    | some bom => rfl

/-- C6 amended: every record in the output except the level-0 root
record has a `component_name` free of the fifteen filter keywords; the
root record itself is emitted unconditionally. -/
theorem claim_C6_amended :
    ∀ (cat : Catalog) (fuel : Nat) (reference : String) (s st : St),
      fetch_bom_recursive cat fuel reference s = some (.ok st) →
      ∃ root rest, st.bom_data = root :: rest ∧
        ∀ r ∈ rest, should_filter_name r.component_name = false := by
  intro cat fuel reference s st h
  rw [fetch_eq] at h
  cases hp : get_product_by_reference cat reference with
  | none =>
    simp only [hp] at h
    exact absurd h (by simp)
  | some product =>
    simp only [hp] at h
    cases hb : get_bom_for_product cat product.id with
    | none =>
      simp only [hb] at h
      exact absurd h (by simp)
    | some bom =>
      simp only [hb] at h
      obtain ⟨⟨new, hbd, hnew⟩, -⟩ := gbl_evolves cat fuel bom.id reference 1 1 _ st h
      exact ⟨⟨0, reference, product.name, "1.00", "", "", true⟩, new, hbd, hnew⟩

/-- Witness for C6 amended at concrete inputs: the `c6cat` fetch output
splits into its root record and a (here empty) keyword-free remainder. -/
theorem claim_C6_amended_witness :
    fetch_bom_recursive c6cat 10 "R" ⟨[], [], []⟩ =
      some (.ok ⟨[10], [⟨0, "R", "Control box", "1.00", "", "", true⟩],
        [("R", "Control box")]⟩) ∧
    ∃ root rest,
      (⟨[10], [⟨0, "R", "Control box", "1.00", "", "", true⟩],
        [("R", "Control box")]⟩ : St).bom_data = root :: rest ∧
      ∀ r ∈ rest, should_filter_name r.component_name = false :=
  ⟨by decide, claim_C6_amended c6cat 10 "R" ⟨[], [], []⟩ _ (by decide)⟩

/-- C1 amended: no record is ever emitted FOR a keyword-filtered
component (every record a traversal adds survives the filter), but the
child BOM of a filtered component IS still traversed: in `c1cat` the
children `C` and `D` of the filtered component `F` appear in the output
with `parent_bom_reference = "F"`. -/
theorem claim_C1_amended :
    (∀ (cat : Catalog) (fuel bom_id : Nat) (parent_reference : String) (parent_qty : ℚ)
      (level : Nat) (s st : St),
      get_bom_lines cat fuel bom_id parent_reference parent_qty level s = some (.ok st) →
      ∀ r ∈ st.bom_data, r ∈ s.bom_data ∨ should_filter_name r.component_name = false) ∧
    (∃ st, fetch_bom_recursive c1cat 10 "R" ⟨[], [], []⟩ = some (.ok st) ∧
      ⟨2, "C", "Widget", "1.00", "F", "Box of parts", false⟩ ∈ st.bom_data ∧
      ⟨2, "D", "Gadget", "1.00", "F", "Box of parts", false⟩ ∈ st.bom_data) := by
  constructor
  · intro cat fuel b pr q l s st h r hr
    obtain ⟨⟨new, hbd, hnew⟩, -⟩ := gbl_evolves cat fuel b pr q l s st h
    rw [hbd] at hr
    rcases List.mem_append.1 hr with h' | h'
    · exact .inl h'
    · exact .inr (hnew r h')
  · exact ⟨⟨[20, 10],
      [⟨0, "R", "Root", "1.00", "", "", true⟩,
       ⟨2, "C", "Widget", "1.00", "F", "Box of parts", false⟩,
       ⟨2, "D", "Gadget", "1.00", "F", "Box of parts", false⟩],
      [("F", "Box of parts"), ("R", "Root")]⟩, by decide, by decide, by decide⟩

/-- Witness for C1 amended at concrete inputs: the records emitted by
expanding `c1cat`'s root BOM are each either pre-existing or
keyword-free. -/
theorem claim_C1_amended_witness :
    get_bom_lines c1cat 10 10 "R" 1 1
        ⟨[], [⟨0, "R", "Root", "1.00", "", "", true⟩], [("R", "Root")]⟩ =
      some (.ok ⟨[20, 10],
        [⟨0, "R", "Root", "1.00", "", "", true⟩,
         ⟨2, "C", "Widget", "1.00", "F", "Box of parts", false⟩,
         ⟨2, "D", "Gadget", "1.00", "F", "Box of parts", false⟩],
        [("F", "Box of parts"), ("R", "Root")]⟩) ∧
    ∀ r ∈ ([⟨0, "R", "Root", "1.00", "", "", true⟩,
         ⟨2, "C", "Widget", "1.00", "F", "Box of parts", false⟩,
         ⟨2, "D", "Gadget", "1.00", "F", "Box of parts", false⟩] : List Rec),
      r ∈ ([⟨0, "R", "Root", "1.00", "", "", true⟩] : List Rec) ∨
        should_filter_name r.component_name = false :=
  ⟨by decide, fun r hr => claim_C1_amended.1 c1cat 10 10 "R" 1 1
    ⟨[], [⟨0, "R", "Root", "1.00", "", "", true⟩], [("R", "Root")]⟩
    ⟨[20, 10],
      [⟨0, "R", "Root", "1.00", "", "", true⟩,
       ⟨2, "C", "Widget", "1.00", "F", "Box of parts", false⟩,
       ⟨2, "D", "Gadget", "1.00", "F", "Box of parts", false⟩],
      [("F", "Box of parts"), ("R", "Root")]⟩ (by decide) r hr⟩

/-! Simulation machinery for C9: running the same traversal from two
states whose caches are `cacheExtends`-related produces results of the
same shape whose records agree on everything except `parent_bom_name`. -/

lemma recAgree_refl (r : Rec) : RecAgree r r := ⟨rfl, rfl, rfl, rfl, rfl, rfl⟩

lemma forall₂_recAgree_refl : ∀ l : List Rec, List.Forall₂ RecAgree l l := by
  intro l
  induction l with
  | nil => exact List.Forall₂.nil
  | cons x xs ih => exact List.Forall₂.cons (recAgree_refl x) ih

lemma forall₂_concat {R : Rec → Rec → Prop} {l1 l2 : List Rec} {a b : Rec}
    (h : List.Forall₂ R l1 l2) (hab : R a b) : List.Forall₂ R (l1 ++ [a]) (l2 ++ [b]) := by
  induction h with
  | nil => exact List.Forall₂.cons hab List.Forall₂.nil
  | cons hx _ ih => exact List.Forall₂.cons hx ih

lemma cacheExtends_cons {cat : Catalog} {c c' : List (String × String)}
    (hce : cacheExtends cat c c') (k : String) (v : String) :
    cacheExtends cat ((k, v) :: c) ((k, v) :: c') := by
  constructor
  · intro k2 v2 h2
    rw [lookup_cons] at h2
    rw [lookup_cons]
    by_cases hk : k2 = k
    · rw [if_pos hk] at h2
      rw [if_pos hk]
      exact h2
    · rw [if_neg hk] at h2
      rw [if_neg hk]
      exact hce.1 k2 v2 h2
  · intro k2 v2 h2
    rw [lookup_cons] at h2
    by_cases hk : k2 = k
    · rw [if_pos hk] at h2
      exact .inl (by rw [lookup_cons, if_pos hk]; exact h2)
    · rw [if_neg hk] at h2
      rcases hce.2 k2 v2 h2 with h' | h'
      · exact .inl (by rw [lookup_cons, if_neg hk]; exact h')
      · exact .inr h'

/-- Populating the cache at the same key from two related caches keeps
them related. -/
lemma ensureParent_agree {cat : Catalog} {c c' : List (String × String)}
    (hce : cacheExtends cat c c') (k : String) :
    cacheExtends cat (ensureParent cat c k) (ensureParent cat c' k) := by
  unfold ensureParent
  cases hc : c.lookup k with
  | some v =>
    have hc' := hce.1 k v hc
    rw [hc']
    exact hce
  | none =>
    cases hc' : c'.lookup k with
    | none =>
      exact cacheExtends_cons hce k (resolveParentName cat k)
    | some v =>
      have hv : v = resolveParentName cat k := by
        rcases hce.2 k v hc' with h | h
        · rw [hc] at h
          exact absurd h (by simp)
        · exact h
      show cacheExtends cat ((k, resolveParentName cat k) :: c) c'
      constructor
      · intro k2 v2 h2
        rw [lookup_cons] at h2
        by_cases hk : k2 = k
        · rw [if_pos hk] at h2
          rw [hk, hc', hv]
          exact h2
        · rw [if_neg hk] at h2
          exact hce.1 k2 v2 h2
      · intro k2 v2 h2
        by_cases hk : k2 = k
        · rw [hk] at h2
          rw [hc'] at h2
          injection h2 with hv2
          exact .inr (by rw [hk, ← hv2]; exact hv)
        · rcases hce.2 k2 v2 h2 with h' | h'
          · exact .inl (by rw [lookup_cons, if_neg hk]; exact h')
          · exact .inr h'

/-- Line processing from two agreeing states yields agreeing results,
assuming the recursive call does. -/
lemma process_line_agree (cat : Catalog) (fuel : Nat)
    (recur : Nat → String → ℚ → Nat → St → Option (Except PErr St))
    (hrec : ∀ b pr q l st st2, StAgree cat st st2 →
      MAgree cat (recur b pr q l st) (recur b pr q l st2)) :
    ∀ (parent_reference : String) (parent_qty : ℚ) (level : Nat) (s s2 : St) (line : BomLine),
      StAgree cat s s2 →
      MAgree cat (process_line cat fuel recur parent_reference parent_qty level s line)
        (process_line cat fuel recur parent_reference parent_qty level s2 line) := by
  intro pr pq level s s2 line hag
  obtain ⟨hproc, hbd, hce⟩ := hag
  cases h1 : line.product_id with
  | none =>
    rw [process_line_no_product cat fuel recur pr pq level s line h1,
      process_line_no_product cat fuel recur pr pq level s2 line h1]
    exact ⟨hproc, hbd, hce⟩
  | some pid =>
    cases h2 : getProduct cat pid with
    | none =>
      rw [process_line_missing cat fuel recur pr pq level s line pid h1 h2,
        process_line_missing cat fuel recur pr pq level s2 line pid h1 h2]
      exact rfl
    | some p =>
      cases h4 : get_bom_for_product cat pid with
      | none =>
        cases h3 : should_filter_name (resolvedName cat p) with
        | true =>
          rw [process_line_filtered_leaf cat fuel recur pr pq level s line pid p h1 h2 h3 h4,
            process_line_filtered_leaf cat fuel recur pr pq level s2 line pid p h1 h2 h3 h4]
          exact ⟨hproc, hbd, hce⟩
        | false =>
          rw [process_line_leaf cat fuel recur pr pq level s line pid p h1 h2 h3 h4,
            process_line_leaf cat fuel recur pr pq level s2 line pid p h1 h2 h3 h4]
          exact ⟨hproc, forall₂_concat hbd ⟨rfl, rfl, rfl, rfl, rfl, rfl⟩,
            ensureParent_agree hce pr⟩
      | some cb =>
        cases h5 : get_collapsed_single_child cat fuel cb.id (line.product_qty * pq) level with
        | none =>
          rw [process_line_collapse_diverge cat fuel recur pr pq level s line pid p cb
            h1 h2 h4 h5,
            process_line_collapse_diverge cat fuel recur pr pq level s2 line pid p cb
            h1 h2 h4 h5]
          trivial
        | some o =>
          cases o with
          | some collapsed =>
            cases h3 : should_filter_name (resolvedName cat p) with
            | true =>
              rw [process_line_filtered_collapse cat fuel recur pr pq level s line pid p cb
                collapsed h1 h2 h3 h4 h5,
                process_line_filtered_collapse cat fuel recur pr pq level s2 line pid p cb
                collapsed h1 h2 h3 h4 h5]
              exact ⟨hproc, forall₂_concat hbd ⟨rfl, rfl, rfl, rfl, rfl, rfl⟩, hce⟩
            | false =>
              rw [process_line_collapse cat fuel recur pr pq level s line pid p cb collapsed
                h1 h2 h3 h4 h5,
                process_line_collapse cat fuel recur pr pq level s2 line pid p cb collapsed
                h1 h2 h3 h4 h5]
              exact ⟨hproc, forall₂_concat hbd ⟨rfl, rfl, rfl, rfl, rfl, rfl⟩,
                ensureParent_agree hce pr⟩
          | none =>
            cases h3 : should_filter_name (resolvedName cat p) with
            | true =>
              rw [process_line_filtered_recurse cat fuel recur pr pq level s line pid p cb
                h1 h2 h3 h4 h5,
                process_line_filtered_recurse cat fuel recur pr pq level s2 line pid p cb
                h1 h2 h3 h4 h5]
              exact hrec _ _ _ _ _ _ ⟨hproc, hbd, hce⟩
            | false =>
              rw [process_line_branch_recurse cat fuel recur pr pq level s line pid p cb
                h1 h2 h3 h4 h5,
                process_line_branch_recurse cat fuel recur pr pq level s2 line pid p cb
                h1 h2 h3 h4 h5]
              exact hrec _ _ _ _ _ _ ⟨hproc,
                forall₂_concat hbd ⟨rfl, rfl, rfl, rfl, rfl, rfl⟩,
                ensureParent_agree hce pr⟩

/-- Folding the loop body over the same lines from two agreeing states
yields agreeing results. -/
lemma run_lines_agree (cat : Catalog) (step : St → BomLine → Option (Except PErr St))
    (hstep : ∀ s s2 line, StAgree cat s s2 → MAgree cat (step s line) (step s2 line)) :
    ∀ (lines : List BomLine) (s s2 : St), StAgree cat s s2 →
      MAgree cat (run_lines step lines s) (run_lines step lines s2) := by
  intro lines
  induction lines with
  | nil =>
    intro s s2 h
    rw [run_lines, run_lines]
    exact h
  | cons l ls ih =>
    intro s s2 h
    have hm := hstep s s2 l h
    cases hs : step s l with
    | none =>
      cases hs2 : step s2 l with
      | none => simp only [run_lines, hs, hs2]; trivial
      | some e2 =>
        rw [hs, hs2] at hm
        cases e2 <;> exact (hm : False).elim
    | some e =>
      cases hs2 : step s2 l with
      | none =>
        rw [hs, hs2] at hm
        cases e <;> exact (hm : False).elim
      | some e2 =>
        cases e with
        | error err =>
          cases e2 with
          | error err2 =>
            rw [hs, hs2] at hm
            simp only [run_lines, hs, hs2]
            exact hm
          | ok s21 =>
            rw [hs, hs2] at hm
            exact (hm : False).elim
        | ok s1 =>
          cases e2 with
          | error err2 =>
            rw [hs, hs2] at hm
            exact (hm : False).elim
          | ok s21 =>
            rw [hs, hs2] at hm
            simp only [run_lines, hs, hs2]
            exact ih s1 s21 hm

/-- A whole `get_bom_lines` call from two agreeing states yields
agreeing results. -/
lemma gbl_agree (cat : Catalog) :
    ∀ (fuel bom_id : Nat) (parent_reference : String) (parent_qty : ℚ) (level : Nat)
      (s s2 : St), StAgree cat s s2 →
      MAgree cat (get_bom_lines cat fuel bom_id parent_reference parent_qty level s)
        (get_bom_lines cat fuel bom_id parent_reference parent_qty level s2) := by
  intro fuel
  induction fuel with
  | zero =>
    intro b pr q l s s2 h
    simp only [get_bom_lines]
    trivial
  | succ n ih =>
    intro b pr q l s s2 h
    obtain ⟨hproc, hbd, hce⟩ := h
    rw [get_bom_lines, get_bom_lines, hproc]
    by_cases hc : s2.processed_boms.contains b
    · rw [if_pos hc, if_pos hc]
      exact ⟨hproc, hbd, hce⟩
    · rw [if_neg hc, if_neg hc]
      exact run_lines_agree cat _
        (fun st st2 line hh => process_line_agree cat n
          (fun b2 pr2 q2 l2 st3 => get_bom_lines cat n b2 pr2 q2 l2 st3)
          (fun b2 pr2 q2 l2 st3 st4 hh2 => ih b2 pr2 q2 l2 st3 st4 hh2) pr q l st st2 line hh)
        (cat.bom_lines.filter (fun l2 => l2.bom_id == b))
        ⟨b :: s2.processed_boms, s.bom_data, s.parent_names⟩
        ⟨b :: s2.processed_boms, s2.bom_data, s2.parent_names⟩
        ⟨rfl, hbd, hce⟩

/-- C9 amended: two successive fetches on the same fetcher return record
lists of the same length that agree on every field except possibly
`parent_bom_name`.  The exception is real: a collapse-replacement record
reads the parent-name cache without populating it, so the second run can
emit a resolved name where the first emitted the raw reference. -/
theorem claim_C9_amended :
    ∀ (cat : Catalog) (fuel : Nat) (reference : String) (s0 st1 : St),
      fetch_bom_recursive cat fuel reference s0 = some (.ok st1) →
      ∃ st2, fetch_bom_recursive cat fuel reference st1 = some (.ok st2) ∧
        List.Forall₂ RecAgree st1.bom_data st2.bom_data ∧
        st1.bom_data.length = st2.bom_data.length := by
  intro cat fuel reference s0 st1 h
  rw [fetch_eq] at h
  rw [fetch_eq cat fuel reference st1]
  cases hp : get_product_by_reference cat reference with
  | none =>
    simp only [hp] at h
    exact absurd h (by simp)
  | some product =>
    simp only [hp] at h ⊢
    cases hb : get_bom_for_product cat product.id with
    | none =>
      simp only [hb] at h
      exact absurd h (by simp)
    | some bom =>
      simp only [hb] at h ⊢
      have hev := gbl_evolves cat fuel bom.id reference 1 1
        ⟨[], [⟨0, reference, product.name, "1.00", "", "", true⟩],
          (reference, product.name) :: s0.parent_names⟩ st1 h
      have hce0 : cacheExtends cat ((reference, product.name) :: s0.parent_names)
          st1.parent_names := hev.2
      have hce : cacheExtends cat ((reference, product.name) :: s0.parent_names)
          ((reference, product.name) :: st1.parent_names) := by
        constructor
        · intro k v hk
          rw [lookup_cons]
          by_cases hkk : k = reference
          · rw [if_pos hkk]
            rw [lookup_cons, if_pos hkk] at hk
            exact hk
          · rw [if_neg hkk]
            exact hce0.1 k v hk
        · intro k v hk
          rw [lookup_cons] at hk
          by_cases hkk : k = reference
          · rw [if_pos hkk] at hk
            exact .inl (by rw [lookup_cons, if_pos hkk]; exact hk)
          · rw [if_neg hkk] at hk
            rcases hce0.2 k v hk with h' | h'
            · exact .inl h'
            · exact .inr h'
      have hag := gbl_agree cat fuel bom.id reference 1 1
        ⟨[], [⟨0, reference, product.name, "1.00", "", "", true⟩],
          (reference, product.name) :: s0.parent_names⟩
        ⟨[], [⟨0, reference, product.name, "1.00", "", "", true⟩],
          (reference, product.name) :: st1.parent_names⟩
        ⟨rfl, forall₂_recAgree_refl _, hce⟩
      rw [h] at hag
      cases hg2 : get_bom_lines cat fuel bom.id reference 1 1
          ⟨[], [⟨0, reference, product.name, "1.00", "", "", true⟩],
            (reference, product.name) :: st1.parent_names⟩ with
      | none =>
        rw [hg2] at hag
        exact (hag : False).elim
      | some e2 =>
        cases e2 with
        | error err =>
          rw [hg2] at hag
          exact (hag : False).elim
        | ok st2 =>
          rw [hg2] at hag
          have hst : StAgree cat st1 st2 := hag
          exact ⟨st2, rfl, hst.2.1, hst.2.1.length_eq⟩

/-- Witness for C9 amended at concrete inputs: running the `c2cat` fetch
twice in a row, the second run succeeds and its records agree with the
first run's on every field but `parent_bom_name`. -/
theorem claim_C9_amended_witness :
    fetch_bom_recursive c2cat 10 "ROOT-1" ⟨[], [], []⟩ =
      some (.ok ⟨[10],
        [⟨0, "ROOT-1", "RootName", "1.00", "", "", true⟩,
         ⟨1, "LEAF-1", "LeafName", "6.00", "ROOT-1", "RootName", false⟩],
        [("ROOT-1", "RootName")]⟩) ∧
    ∃ st2, fetch_bom_recursive c2cat 10 "ROOT-1"
        ⟨[10],
          [⟨0, "ROOT-1", "RootName", "1.00", "", "", true⟩,
           ⟨1, "LEAF-1", "LeafName", "6.00", "ROOT-1", "RootName", false⟩],
          [("ROOT-1", "RootName")]⟩ = some (.ok st2) ∧
      List.Forall₂ RecAgree
        [⟨0, "ROOT-1", "RootName", "1.00", "", "", true⟩,
         ⟨1, "LEAF-1", "LeafName", "6.00", "ROOT-1", "RootName", false⟩] st2.bom_data ∧
      ([⟨0, "ROOT-1", "RootName", "1.00", "", "", true⟩,
        ⟨1, "LEAF-1", "LeafName", "6.00", "ROOT-1", "RootName", false⟩] : List Rec).length =
        st2.bom_data.length :=
  ⟨by decide, claim_C9_amended c2cat 10 "ROOT-1" ⟨[], [], []⟩ _ (by decide)⟩

end SyncOdoo
